import Mathlib

/-!
Shallow embedding of LONGUPLOADER (src/main.py), a sequential batch script that
downloads a list of YouTube videos and forwards each to a Telegram channel.

Modelling choices:
* All interaction with the outside world (yt-dlp, the Telegram API, the
  filesystem size/remove calls) is captured by an `Env` oracle giving, per URL
  or per path, the outcome the external call would have.
* Observable behaviour is an `Event` trace: log lines at their level, plus
  structured markers for the external calls (download invocation, metadata
  lookup, notifier invocation, the actual `bot.send_video` attempt, the
  `os.remove` attempt) and a `finished` marker for the final per-URL log line.
* The temporary download directory is a `List String` of live file paths,
  threaded through the run: a successful download appends its output file,
  a successful `os.remove` erases it.
* Python machine details that the claims do not touch (float formatting of the
  size, `os.path.basename`) are simplified in the log message strings only;
  the branching structure follows the source line by line.
* The 50 MB test `file_size / (1024*1024) > 50` on a float is exactly
  `file_size > 50 * 1024 * 1024` on the integer byte count.
-/

namespace LongUploader

/-- Outcome of `ydl.extract_info(url, download=True)` inside
`download_youtube_video`: a merged output file, a `yt_dlp.DownloadError`,
or any other exception. -/
inductive FetchOutcome where
  | ok (filename : String)
  | downloadError (msg : String)
  | otherError (msg : String)
deriving DecidableEq

/-- Outcome of the metadata-only `extract_info(url, download=False)` in `main`:
either an info dict whose optional title is returned, or an exception. -/
inductive MetaOutcome where
  | ok (title : Option String)
  | exc (msg : String)
deriving DecidableEq

/-- Outcome of `bot.send_video` inside `send_video_to_telegram`:
success, a `TelegramError`, or any other exception. -/
inductive SendOutcome where
  | ok
  | telegramError (msg : String)
  | otherError (msg : String)
deriving DecidableEq

/-- Observable events of a run: log lines and external-call markers. -/
inductive Event where
  | logInfo (msg : String)
  | logWarning (msg : String)
  | logError (msg : String)
  | fetchCall (url : String)
  | metaCall (url : String)
  | notifierCall (chatId : String) (path : String) (caption : Option String)
  | sendVideo (chatId : String) (path : String) (caption : Option String)
  | removeCall (path : String)
  | finished (url : String)
deriving DecidableEq

/-- Oracle for the external world: what each outbound call would return.
`size` is the byte count `os.path.getsize` reports for a present file;
`removeOk` tells whether `os.remove` succeeds or raises an `OSError`. -/
structure Env where
  fetch : String → FetchOutcome
  meta : String → MetaOutcome
  size : String → Nat
  send : String → SendOutcome
  removeOk : String → Bool

/-- `TELEGRAM_BOT_TOKEN` constant of src/main.py (the placeholder value). -/
def TELEGRAM_BOT_TOKEN : String := "YOUR_TELEGRAM_BOT_TOKEN"

/-- `TELEGRAM_CHANNEL_ID` constant of src/main.py (the placeholder value). -/
def TELEGRAM_CHANNEL_ID : String := "-1001234567890"

/-- `DOWNLOAD_DIR` constant of src/main.py. -/
def DOWNLOAD_DIR : String := "downloads"

/-- The hardcoded `youtube_urls` job list of src/main.py. -/
def youtube_urls : List String :=
  ["https://www.youtube.com/watch?v=dQw4w9WgXcQ",
   "https://www.youtube.com/watch?v=kYqg460iU-0"]

/-- `download_youtube_video(url, output_path)` of src/main.py, lines 28-74.
Takes the current download-directory contents `disk`; on success yt-dlp has
written the merged output file, so the file is appended to `disk` and its path
returned; on `yt_dlp.DownloadError` or any other exception the error is logged
and `none` is returned. Result: (new disk, returned value, events). -/
def download_youtube_video (env : Env) (disk : List String) (url : String) :
    List String × Option String × List Event :=
  match env.fetch url with
  | FetchOutcome.ok filename =>
      (disk ++ [filename], some filename,
        [Event.logInfo ("Attempting to download video from: " ++ url),
         Event.fetchCall url,
         Event.logInfo ("Successfully downloaded: " ++ filename)])
  | FetchOutcome.downloadError e =>
      (disk, none,
        [Event.logInfo ("Attempting to download video from: " ++ url),
         Event.fetchCall url,
         Event.logError ("yt-dlp Download Error for " ++ url ++ ": " ++ e)])
  | FetchOutcome.otherError e =>
      (disk, none,
        [Event.logInfo ("Attempting to download video from: " ++ url),
         Event.fetchCall url,
         Event.logError ("An unexpected error occurred during video download from "
            ++ url ++ ": " ++ e)])

/-- The `logger.warning` message of src/main.py lines 92-99, emitted when the
file exceeds the 50 MB direct bot upload limit (content abridged). -/
def oversize_warning (video_path : String) : String :=
  "Video " ++ video_path ++
    " is over 50MB. Telegram direct bot video upload limit is around 50MB. " ++
    "Consider sending as a document or using a local Bot API server. " ++
    "The current code will attempt to send as a video, which might fail."

/-- Events of the `bot.send_video` call and its exception handlers
(src/main.py lines 109-117): the attempt itself, then the per-outcome log. -/
def send_outcome_events (env : Env) (chat_id : String) (video_path : String)
    (caption : Option String) : List Event :=
  Event.sendVideo chat_id video_path caption ::
  (match env.send video_path with
   | SendOutcome.ok =>
       [Event.logInfo ("Video " ++ video_path ++ " successfully sent to Telegram.")]
   | SendOutcome.telegramError e =>
       [Event.logError ("Telegram API error when sending video " ++ video_path
          ++ ": " ++ e)]
   | SendOutcome.otherError e =>
       [Event.logError ("An unexpected error occurred when sending " ++ video_path
          ++ " to Telegram: " ++ e)])

/-- `send_video_to_telegram(bot, chat_id, video_path, caption)` of src/main.py,
lines 76-117. `disk` is the set of files present: a missing file makes
`os.path.getsize` raise `FileNotFoundError`, which is caught and logged.
Otherwise the size is checked against 50 MB (warning only), and the upload is
attempted with its outcome logged. The Python function always returns `None`;
here its whole observable result is the event list. -/
def send_video_to_telegram (env : Env) (chat_id : String) (disk : List String)
    (video_path : String) (caption : Option String) : List Event :=
  Event.notifierCall chat_id video_path caption ::
  (if video_path ∈ disk then
    (if 50 * 1024 * 1024 < env.size video_path then
      [Event.logWarning (oversize_warning video_path)]
     else []) ++
    send_outcome_events env chat_id video_path caption
   else
    [Event.logError ("Error: Video file not found at path: " ++ video_path)])

/-- The caption computation of src/main.py lines 146-156: metadata-only lookup
of the title, falling back to "YouTube Video" when the lookup raises or the
info dict has no title. Returns the title and the events of the lookup. -/
def video_title_lookup (env : Env) (url : String) : String × List Event :=
  match env.meta url with
  | MetaOutcome.ok (some t) => (t, [Event.metaCall url])
  | MetaOutcome.ok none => ("YouTube Video", [Event.metaCall url])
  | MetaOutcome.exc e =>
      ("YouTube Video",
       [Event.metaCall url,
        Event.logWarning ("Could not extract video title for " ++ url ++ ": " ++ e)])

/-- The cleanup step of src/main.py lines 159-164: `os.remove` is attempted;
on success an info line is logged, on `OSError` a warning only. -/
def cleanup_events (env : Env) (path : String) : List Event :=
  if env.removeOk path then
    [Event.removeCall path,
     Event.logInfo ("Successfully removed local file: " ++ path)]
  else
    [Event.removeCall path,
     Event.logWarning ("Error removing file " ++ path)]

/-- One iteration of the `for url in youtube_urls` loop of src/main.py,
lines 141-167: fetch, then on success caption + send + cleanup, on failure a
skip log; the closing log line is the `finished` marker.
Result: (new disk, events of this iteration). -/
def process_url (env : Env) (chat_id : String) (disk : List String)
    (url : String) : List String × List Event :=
  let start := Event.logInfo ("--- Starting processing for URL: " ++ url ++ " ---")
  match download_youtube_video env disk url with
  | (disk1, some path, devs) =>
      let (title, mevs) := video_title_lookup env url
      let caption_text := "Title: " ++ title ++ "\nSource: " ++ url
      let sevs := send_video_to_telegram env chat_id disk1 path (some caption_text)
      let disk2 := if env.removeOk path then disk1.erase path else disk1
      (disk2,
       start :: devs ++ mevs ++ sevs ++ cleanup_events env path
         ++ [Event.finished url])
  | (disk1, none, devs) =>
      (disk1,
       start :: devs ++
        [Event.logError ("Skipping Telegram upload for URL " ++ url
           ++ " due to previous download failure."),
         Event.finished url])

/-- The whole `for url in youtube_urls` loop: sequential, one URL at a time. -/
def runJobs (env : Env) (chat_id : String) (disk : List String) :
    List String → List String × List Event
  | [] => (disk, [])
  | url :: rest =>
      let (d1, e1) := process_url env chat_id disk url
      let (d2, e2) := runJobs env chat_id d1 rest
      (d2, e1 ++ e2)

/-- The two `logger.error` lines of the configuration guard
(src/main.py lines 124-125). -/
def config_error_events : List Event :=
  [Event.logError ("Please update TELEGRAM_BOT_TOKEN and TELEGRAM_CHANNEL_ID "
      ++ "in the script with your actual values."),
   Event.logError ("Alternatively, set them as environment variables "
      ++ "(recommended for Railway).")]

/-- `main()` of src/main.py, lines 119-167, parameterised by the configuration
values and the job list (hardcoded globals in the source). The guard compares
them against the literal placeholder strings; if either matches, two errors are
logged and the function returns before any job. Otherwise the bot is
initialised and the loop runs. Result: (final disk contents, events). -/
def main (env : Env) (token chat_id : String) (urls : List String) :
    List String × List Event :=
  if token = "YOUR_TELEGRAM_BOT_TOKEN" ∨ chat_id = "-1001234567890" then
    ([], config_error_events)
  else
    let (d, e) := runJobs env chat_id [] urls
    (d, Event.logInfo "Telegram Bot initialized." :: e)

/-- Number of events satisfying `p`. -/
def countEvents (p : Event → Bool) (evs : List Event) : Nat :=
  (evs.filter p).length

/-- Marker of an invocation of `download_youtube_video`s yt-dlp download. -/
def isFetchCall : Event → Bool
  | Event.fetchCall _ => true
  | _ => false

/-- Marker of a metadata-only lookup. -/
def isMetaCall : Event → Bool
  | Event.metaCall _ => true
  | _ => false

/-- Marker of an invocation of `send_video_to_telegram`. -/
def isNotifierCall : Event → Bool
  | Event.notifierCall _ _ _ => true
  | _ => false

/-- Marker of an actual `bot.send_video` upload attempt. -/
def isSendVideo : Event → Bool
  | Event.sendVideo _ _ _ => true
  | _ => false

/-- Marker of an `os.remove` attempt. -/
def isRemoveCall : Event → Bool
  | Event.removeCall _ => true
  | _ => false

/-- A failing-world oracle: every external call fails. -/
def stubEnv : Env :=
  { fetch := fun _ => FetchOutcome.downloadError "network unreachable",
    meta := fun _ => MetaOutcome.exc "network unreachable",
    size := fun _ => 0,
    send := fun _ => SendOutcome.telegramError "unauthorized",
    removeOk := fun _ => false }

/-- The URL of the end-to-end example. -/
def exampleUrl : String := "https://example.com/watch?v=A"

/-- Oracle of the end-to-end example: fetching `exampleUrl` yields
`downloads/VidA.mp4`, its metadata lookup yields title `Vid A`, the file is
1 MB, the upload succeeds and removal succeeds. -/
def exampleEnv : Env :=
  { fetch := fun u => if u = exampleUrl then FetchOutcome.ok "downloads/VidA.mp4"
      else FetchOutcome.downloadError "unavailable",
    meta := fun u => if u = exampleUrl then MetaOutcome.ok (some "Vid A")
      else MetaOutcome.exc "unavailable",
    size := fun _ => 1048576,
    send := fun _ => SendOutcome.ok,
    removeOk := fun _ => true }

/-- Index of the first event satisfying `p` (length of the list if none). -/
def firstIndex (p : Event → Bool) (evs : List Event) : Nat :=
  (evs.takeWhile (fun e => !p e)).length

/-- A world where fetching always succeeds with `v.mp4` but every later
external call (metadata, upload, removal) fails. -/
def fetchOkStubEnv : Env :=
  { stubEnv with fetch := fun _ => FetchOutcome.ok "v.mp4" }

/-- The end-to-end example world with a failing `os.remove`. -/
def stuckEnv : Env :=
  { exampleEnv with removeOk := fun _ => false }

/- ## Helper lemmas (shared) -/

theorem countEvents_append (p : Event → Bool) (a b : List Event) :
    countEvents p (a ++ b) = countEvents p a + countEvents p b := by
  simp [countEvents, List.filter_append]

theorem send_filter_notifier (env : Env) (chat_id : String) (disk : List String)
    (video_path : String) (caption : Option String) :
    (send_video_to_telegram env chat_id disk video_path caption).filter
        isNotifierCall = [Event.notifierCall chat_id video_path caption] := by
  simp only [send_video_to_telegram, send_outcome_events]
  split
  · split <;> cases env.send video_path <;> simp [isNotifierCall]
  · simp [isNotifierCall]

theorem send_filter_remove (env : Env) (chat_id : String) (disk : List String)
    (video_path : String) (caption : Option String) :
    (send_video_to_telegram env chat_id disk video_path caption).filter
        isRemoveCall = [] := by
  simp only [send_video_to_telegram, send_outcome_events]
  split
  · split <;> cases env.send video_path <;> simp [isRemoveCall]
  · simp [isRemoveCall]

theorem send_notifier_count (env : Env) (chat_id : String) (disk : List String)
    (video_path : String) (caption : Option String) :
    countEvents isNotifierCall
      (send_video_to_telegram env chat_id disk video_path caption) = 1 := by
  simp [countEvents, send_filter_notifier]

theorem cleanup_filter_notifier (env : Env) (path : String) :
    (cleanup_events env path).filter isNotifierCall = [] := by
  unfold cleanup_events
  split <;> simp [isNotifierCall]

theorem cleanup_filter_remove (env : Env) (path : String) :
    (cleanup_events env path).filter isRemoveCall = [Event.removeCall path] := by
  unfold cleanup_events
  split <;> simp [isRemoveCall]

theorem video_title_lookup_send_irrelevant (env : Env)
    (s : String → SendOutcome) (url : String) :
    video_title_lookup { env with send := s } url =
      video_title_lookup env url := rfl

/- ## Claim theorems -/

/-- C7: `download_youtube_video` never propagates an exception to its caller:
for every environment and URL it is a total function that either returns the
downloaded file path reported by yt-dlp, or logs an error and returns the
failure value `none` (covering both `DownloadError` and unexpected errors). -/
theorem download_never_raises (env : Env) (disk : List String) (url : String) :
    (∃ f, env.fetch url = FetchOutcome.ok f ∧
        (download_youtube_video env disk url).2.1 = some f) ∨
    ((download_youtube_video env disk url).2.1 = none ∧
        ∃ e, Event.logError e ∈ (download_youtube_video env disk url).2.2) := by
  cases h : env.fetch url with
  | ok f =>
      exact Or.inl ⟨f, rfl, by simp [download_youtube_video, h]⟩
  | downloadError e =>
      refine Or.inr ⟨by simp [download_youtube_video, h], ?_⟩
      exact ⟨"yt-dlp Download Error for " ++ url ++ ": " ++ e,
        by simp [download_youtube_video, h]⟩
  | otherError e =>
      refine Or.inr ⟨by simp [download_youtube_video, h], ?_⟩
      exact ⟨"An unexpected error occurred during video download from "
          ++ url ++ ": " ++ e,
        by simp [download_youtube_video, h]⟩

/-- C2: if either configuration value equals its documented placeholder
sentinel, `main` logs the configuration errors and returns before any job:
zero downloads (no yt-dlp call), zero notifier invocations, zero upload
attempts, and a logged configuration error. -/
theorem config_guard_blocks (env : Env) (token chat_id : String)
    (urls : List String)
    (h : token = "YOUR_TELEGRAM_BOT_TOKEN" ∨ chat_id = "-1001234567890") :
    main env token chat_id urls = ([], config_error_events) ∧
    countEvents isFetchCall (main env token chat_id urls).2 = 0 ∧
    countEvents isNotifierCall (main env token chat_id urls).2 = 0 ∧
    countEvents isSendVideo (main env token chat_id urls).2 = 0 ∧
    (∃ m, Event.logError m ∈ (main env token chat_id urls).2) := by
  have hm : main env token chat_id urls = ([], config_error_events) := by
    unfold main
    rw [if_pos h]
  refine ⟨hm, ?_, ?_, ?_, ?_⟩ <;> rw [hm]
  · decide
  · decide
  · decide
  · exact ⟨"Please update TELEGRAM_BOT_TOKEN and TELEGRAM_CHANNEL_ID "
      ++ "in the script with your actual values.", by decide⟩

/-- Witness for C2 at a concrete input: the placeholder token with a genuine
chat id trips the guard. -/
theorem config_guard_blocks_witness :
    ("YOUR_TELEGRAM_BOT_TOKEN" = "YOUR_TELEGRAM_BOT_TOKEN" ∨
        "mychannel" = "-1001234567890") ∧
    (main stubEnv "YOUR_TELEGRAM_BOT_TOKEN" "mychannel" ["u"]
        = ([], config_error_events) ∧
      countEvents isFetchCall
        (main stubEnv "YOUR_TELEGRAM_BOT_TOKEN" "mychannel" ["u"]).2 = 0 ∧
      countEvents isNotifierCall
        (main stubEnv "YOUR_TELEGRAM_BOT_TOKEN" "mychannel" ["u"]).2 = 0 ∧
      countEvents isSendVideo
        (main stubEnv "YOUR_TELEGRAM_BOT_TOKEN" "mychannel" ["u"]).2 = 0 ∧
      (∃ m, Event.logError m ∈
        (main stubEnv "YOUR_TELEGRAM_BOT_TOKEN" "mychannel" ["u"]).2)) :=
  ⟨Or.inl rfl,
   config_guard_blocks stubEnv "YOUR_TELEGRAM_BOT_TOKEN" "mychannel" ["u"]
     (Or.inl rfl)⟩

/-- C9: the startup guard is an exact string-equality disjunction. Whenever
the chat id equals the literal string "-1001234567890", `main` refuses to run
all jobs even though the token is genuine; and for any other pair of strings
(no further well-formedness check) `main` proceeds to run every job. -/
theorem guard_is_exact_string_equality (env : Env) (token chat_id : String)
    (urls : List String) (ht : token ≠ "YOUR_TELEGRAM_BOT_TOKEN") :
    main env token "-1001234567890" urls = ([], config_error_events) ∧
    (chat_id ≠ "-1001234567890" →
      main env token chat_id urls =
        ((runJobs env chat_id [] urls).1,
         Event.logInfo "Telegram Bot initialized." ::
           (runJobs env chat_id [] urls).2)) := by
  constructor
  · unfold main
    rw [if_pos (Or.inr rfl)]
  · intro hc
    unfold main
    rw [if_neg (fun h => h.elim ht hc)]

/-- Witness for C9 at a concrete input: a genuine-looking token with the
placeholder chat id is refused, while a fully non-placeholder pair runs. -/
theorem guard_is_exact_string_equality_witness :
    ("123456:realtoken" ≠ "YOUR_TELEGRAM_BOT_TOKEN") ∧
    main stubEnv "123456:realtoken" "-1001234567890" ["u"]
        = ([], config_error_events) ∧
    main stubEnv "123456:realtoken" "-100555" ["u"] =
      ((runJobs stubEnv "-100555" [] ["u"]).1,
       Event.logInfo "Telegram Bot initialized." ::
         (runJobs stubEnv "-100555" [] ["u"]).2) :=
  ⟨by decide,
   (guard_is_exact_string_equality stubEnv "123456:realtoken" "-100555" ["u"]
     (by decide)).1,
   (guard_is_exact_string_equality stubEnv "123456:realtoken" "-100555" ["u"]
     (by decide)).2 (by decide)⟩

/-- C3: when the file is present and its reported size exceeds 50 MB,
`send_video_to_telegram` logs the size warning and then still attempts the
standard `send_video` upload: the event list is exactly the notifier
invocation, then the warning, then the upload attempt with its outcome —
the warning precedes the attempt and the upload is never skipped. -/
theorem oversize_warns_then_uploads (env : Env) (chat_id : String)
    (disk : List String) (video_path : String) (caption : Option String)
    (hmem : video_path ∈ disk)
    (hsz : 50 * 1024 * 1024 < env.size video_path) :
    send_video_to_telegram env chat_id disk video_path caption =
      Event.notifierCall chat_id video_path caption ::
      Event.logWarning (oversize_warning video_path) ::
      send_outcome_events env chat_id video_path caption ∧
    Event.sendVideo chat_id video_path caption ∈
      send_video_to_telegram env chat_id disk video_path caption := by
  have h1 : send_video_to_telegram env chat_id disk video_path caption =
      Event.notifierCall chat_id video_path caption ::
      Event.logWarning (oversize_warning video_path) ::
      send_outcome_events env chat_id video_path caption := by
    simp [send_video_to_telegram, hmem, hsz]
  refine ⟨h1, ?_⟩
  rw [h1]
  simp [send_outcome_events]

/-- Witness for C3 at a concrete input: a present 52428801-byte file. -/
theorem oversize_warns_then_uploads_witness :
    ("big.mp4" ∈ ["big.mp4"]) ∧
    (50 * 1024 * 1024 <
      ({ stubEnv with size := fun _ => 52428801 } : Env).size "big.mp4") ∧
    (send_video_to_telegram { stubEnv with size := fun _ => 52428801 } "chat"
        ["big.mp4"] "big.mp4" (some "cap") =
      Event.notifierCall "chat" "big.mp4" (some "cap") ::
      Event.logWarning (oversize_warning "big.mp4") ::
      send_outcome_events { stubEnv with size := fun _ => 52428801 } "chat"
        "big.mp4" (some "cap") ∧
    Event.sendVideo "chat" "big.mp4" (some "cap") ∈
      send_video_to_telegram { stubEnv with size := fun _ => 52428801 } "chat"
        ["big.mp4"] "big.mp4" (some "cap")) :=
  ⟨by decide, by decide,
   oversize_warns_then_uploads { stubEnv with size := fun _ => 52428801 }
     "chat" ["big.mp4"] "big.mp4" (some "cap") (by decide) (by decide)⟩

/-- C1: when the fetch for a URL fails (`download_youtube_video` returns
`none`), that iteration makes zero notifier calls and zero metadata lookups,
still reaches its closing log line, and the loop goes on to process the
remaining URLs exactly as it would from the same disk state. -/
theorem fetch_failure_skips_notifier (env : Env) (chat_id : String)
    (disk : List String) (url : String) (rest : List String)
    (h : (download_youtube_video env disk url).2.1 = none) :
    countEvents isNotifierCall (process_url env chat_id disk url).2 = 0 ∧
    countEvents isMetaCall (process_url env chat_id disk url).2 = 0 ∧
    Event.finished url ∈ (process_url env chat_id disk url).2 ∧
    (runJobs env chat_id disk (url :: rest)).2 =
      (process_url env chat_id disk url).2 ++
        (runJobs env chat_id (process_url env chat_id disk url).1 rest).2 := by
  cases hf : env.fetch url with
  | ok f => simp [download_youtube_video, hf] at h
  | downloadError e =>
      refine ⟨?_, ?_, ?_, rfl⟩ <;>
        simp [process_url, download_youtube_video, hf, countEvents,
          isNotifierCall, isMetaCall]
  | otherError e =>
      refine ⟨?_, ?_, ?_, rfl⟩ <;>
        simp [process_url, download_youtube_video, hf, countEvents,
          isNotifierCall, isMetaCall]

/-- Witness for C1 at a concrete input: every fetch fails under `stubEnv`. -/
theorem fetch_failure_skips_notifier_witness :
    ((download_youtube_video stubEnv [] "u").2.1 = none) ∧
    (countEvents isNotifierCall (process_url stubEnv "chat" [] "u").2 = 0 ∧
     countEvents isMetaCall (process_url stubEnv "chat" [] "u").2 = 0 ∧
     Event.finished "u" ∈ (process_url stubEnv "chat" [] "u").2 ∧
     (runJobs stubEnv "chat" [] ["u", "v"]).2 =
       (process_url stubEnv "chat" [] "u").2 ++
         (runJobs stubEnv "chat" (process_url stubEnv "chat" [] "u").1
           ["v"]).2) :=
  ⟨by decide,
   fetch_failure_skips_notifier stubEnv "chat" [] "u" ["v"] (by decide)⟩

/-- C4: when the fetch succeeds but the metadata lookup raises, the caption
falls back to the generic placeholder title and the job still proceeds to the
Sending step: the notifier is invoked (exactly once) with the caption built
from the title "YouTube Video". -/
theorem metadata_failure_generic_caption (env : Env) (chat_id : String)
    (disk : List String) (url path e : String)
    (hf : env.fetch url = FetchOutcome.ok path)
    (hm : env.meta url = MetaOutcome.exc e) :
    Event.notifierCall chat_id path
        (some ("Title: YouTube Video\nSource: " ++ url)) ∈
      (process_url env chat_id disk url).2 ∧
    countEvents isNotifierCall (process_url env chat_id disk url).2 = 1 := by
  constructor
  · simp [process_url, download_youtube_video, hf, video_title_lookup, hm,
      send_video_to_telegram]
  · simp only [process_url, download_youtube_video, hf, video_title_lookup, hm,
      countEvents, List.filter_cons, List.filter_append, send_filter_notifier,
      cleanup_filter_notifier, isNotifierCall]
    simp [isNotifierCall]

/-- Witness for C4 at a concrete input: fetch succeeds, metadata raises. -/
theorem metadata_failure_generic_caption_witness :
    (fetchOkStubEnv.fetch "u" = FetchOutcome.ok "v.mp4") ∧
    (fetchOkStubEnv.meta "u" = MetaOutcome.exc "network unreachable") ∧
    (Event.notifierCall "chat" "v.mp4"
        (some ("Title: YouTube Video\nSource: " ++ "u")) ∈
      (process_url fetchOkStubEnv "chat" [] "u").2 ∧
     countEvents isNotifierCall
      (process_url fetchOkStubEnv "chat" [] "u").2 = 1) :=
  ⟨rfl, rfl,
   metadata_failure_generic_caption fetchOkStubEnv
     "chat" [] "u" "v.mp4" "network unreachable" rfl rfl⟩

/-- C5: on every successful fetch the iteration runs the cleanup step after
the notifier call and before finishing, whatever the upload outcome (the
environment is arbitrary, so the shape below holds for success and for every
failure of the upload): the file is deleted when `os.remove` succeeds, and a
removal failure only logs a warning — the closing log line is still reached. -/
theorem cleanup_always_runs (env : Env) (chat_id : String) (disk : List String)
    (url path : String) (hf : env.fetch url = FetchOutcome.ok path) :
    (process_url env chat_id disk url).2 =
      Event.logInfo ("--- Starting processing for URL: " ++ url ++ " ---") ::
        (download_youtube_video env disk url).2.2
        ++ (video_title_lookup env url).2
        ++ send_video_to_telegram env chat_id (disk ++ [path]) path
            (some ("Title: " ++ (video_title_lookup env url).1
               ++ "\nSource: " ++ url))
        ++ cleanup_events env path ++ [Event.finished url] ∧
    (process_url env chat_id disk url).1 =
      (if env.removeOk path then (disk ++ [path]).erase path
       else disk ++ [path]) ∧
    (env.removeOk path = false →
      Event.logWarning ("Error removing file " ++ path) ∈
        (process_url env chat_id disk url).2) ∧
    Event.finished url ∈ (process_url env chat_id disk url).2 := by
  refine ⟨?_, ?_, ?_, ?_⟩
  · simp [process_url, download_youtube_video, hf]
  · simp [process_url, download_youtube_video, hf]
  · intro hrm
    simp [process_url, download_youtube_video, hf, cleanup_events, hrm]
  · simp [process_url, download_youtube_video, hf]

/-- Witness for C5 at a concrete input: fetch succeeds while the upload and
the removal both fail — the warning is logged and the job still finishes. -/
theorem cleanup_always_runs_witness :
    (fetchOkStubEnv.fetch "u" = FetchOutcome.ok "v.mp4") ∧
    (process_url fetchOkStubEnv "chat" [] "u").2 =
      Event.logInfo ("--- Starting processing for URL: " ++ "u" ++ " ---") ::
        (download_youtube_video fetchOkStubEnv [] "u").2.2
        ++ (video_title_lookup fetchOkStubEnv "u").2
        ++ send_video_to_telegram fetchOkStubEnv "chat" ([] ++ ["v.mp4"])
            "v.mp4"
            (some ("Title: " ++ (video_title_lookup fetchOkStubEnv "u").1
               ++ "\nSource: " ++ "u"))
        ++ cleanup_events fetchOkStubEnv "v.mp4" ++ [Event.finished "u"] ∧
    (process_url fetchOkStubEnv "chat" [] "u").1 =
      (if fetchOkStubEnv.removeOk "v.mp4" then ([] ++ ["v.mp4"]).erase "v.mp4"
       else [] ++ ["v.mp4"]) ∧
    Event.logWarning ("Error removing file " ++ "v.mp4") ∈
      (process_url fetchOkStubEnv "chat" [] "u").2 ∧
    Event.finished "u" ∈ (process_url fetchOkStubEnv "chat" [] "u").2 :=
  ⟨rfl,
   (cleanup_always_runs fetchOkStubEnv "chat" [] "u" "v.mp4" rfl).1,
   (cleanup_always_runs fetchOkStubEnv "chat" [] "u" "v.mp4" rfl).2.1,
   (cleanup_always_runs fetchOkStubEnv "chat" [] "u" "v.mp4" rfl).2.2.1 rfl,
   (cleanup_always_runs fetchOkStubEnv "chat" [] "u" "v.mp4" rfl).2.2.2⟩

/-- C6: end-to-end example. For the job list containing only
`https://example.com/watch?v=A`, a fetch yielding `downloads/VidA.mp4` and a
metadata lookup yielding title `Vid A`, the run makes exactly one notifier
call, with the exact composed caption, and afterwards (after that call)
removes `downloads/VidA.mp4`, leaving the download directory empty. -/
theorem example_run_end_to_end :
    countEvents isNotifierCall
      (main exampleEnv "botToken" "chat" [exampleUrl]).2 = 1 ∧
    Event.notifierCall "chat" "downloads/VidA.mp4"
        (some "Title: Vid A\nSource: https://example.com/watch?v=A") ∈
      (main exampleEnv "botToken" "chat" [exampleUrl]).2 ∧
    Event.removeCall "downloads/VidA.mp4" ∈
      (main exampleEnv "botToken" "chat" [exampleUrl]).2 ∧
    firstIndex isNotifierCall (main exampleEnv "botToken" "chat" [exampleUrl]).2
      < firstIndex isRemoveCall
          (main exampleEnv "botToken" "chat" [exampleUrl]).2 ∧
    (main exampleEnv "botToken" "chat" [exampleUrl]).1 = [] := by
  decide

/-- C8 counterexample: in the end-to-end example world with a failing
`os.remove`, the upload succeeds, the job completes its Cleanup step, and yet
the job's file is still on disk at the end of the run — "after the Cleanup
step zero files related to that job remain on disk, regardless of upload
outcome" is false for the code as written. -/
theorem cleanup_failure_leaves_file :
    (main stuckEnv "botToken" "chat" [exampleUrl]).1 =
      ["downloads/VidA.mp4"] ∧
    ¬ (main stuckEnv "botToken" "chat" [exampleUrl]).1 = [] := by
  decide

/-- C8 amended: provided every `os.remove` succeeds, the invariant holds: the
download directory is empty after any sequence of jobs (in particular before
each next job), a single fetch from an empty directory leaves at most one
file live, and each job started on an empty directory ends with an empty
directory — regardless of upload outcome, since the environment is
arbitrary. -/
theorem single_live_file_invariant (env : Env) (chat_id : String)
    (hrm : env.removeOk = fun _ => true) (jobs : List String) (url : String) :
    (runJobs env chat_id [] jobs).1 = [] ∧
    ((download_youtube_video env [] url).1).length ≤ 1 ∧
    (process_url env chat_id [] url).1 = [] := by
  have hp : ∀ u, (process_url env chat_id [] u).1 = [] := by
    intro u
    cases hf : env.fetch u with
    | ok f =>
        simp [process_url, download_youtube_video, hf, hrm]
    | downloadError e =>
        simp [process_url, download_youtube_video, hf]
    | otherError e =>
        simp [process_url, download_youtube_video, hf]
  refine ⟨?_, ?_, hp url⟩
  · induction jobs with
    | nil => rfl
    | cons u rest ih =>
        have hstep : (runJobs env chat_id [] (u :: rest)).1 =
            (runJobs env chat_id (process_url env chat_id [] u).1 rest).1 :=
          rfl
        rw [hstep, hp u]
        exact ih
  · cases hf : env.fetch url with
    | ok f => simp [download_youtube_video, hf]
    | downloadError e => simp [download_youtube_video, hf]
    | otherError e => simp [download_youtube_video, hf]

/-- Witness for the amended C8 at a concrete input: the example world, whose
removals all succeed. -/
theorem single_live_file_invariant_witness :
    (exampleEnv.removeOk = fun _ => true) ∧
    ((runJobs exampleEnv "chat" [] [exampleUrl]).1 = [] ∧
     ((download_youtube_video exampleEnv [] exampleUrl).1).length ≤ 1 ∧
     (process_url exampleEnv "chat" [] exampleUrl).1 = []) :=
  ⟨rfl,
   single_live_file_invariant exampleEnv "chat" rfl [exampleUrl] exampleUrl⟩

/-- C10: `send_video_to_telegram` gives its caller no success or failure
indication (the Python function always returns `None`), so the loop body is
blind to the upload outcome: replacing the upload outcome oracle by any other
changes neither the resulting disk contents, nor the `os.remove` attempts,
nor the notifier invocations of an iteration, and the iteration finishes
either way. -/
theorem send_outcome_invisible_to_cleanup (env : Env)
    (s : String → SendOutcome) (chat_id : String) (disk : List String)
    (url : String) :
    (process_url { env with send := s } chat_id disk url).1 =
      (process_url env chat_id disk url).1 ∧
    (process_url { env with send := s } chat_id disk url).2.filter
        isRemoveCall =
      (process_url env chat_id disk url).2.filter isRemoveCall ∧
    (process_url { env with send := s } chat_id disk url).2.filter
        isNotifierCall =
      (process_url env chat_id disk url).2.filter isNotifierCall ∧
    Event.finished url ∈ (process_url env chat_id disk url).2 ∧
    Event.finished url ∈ (process_url { env with send := s } chat_id disk
      url).2 := by
  cases hf : env.fetch url with
  | ok f =>
      refine ⟨?_, ?_, ?_, ?_, ?_⟩ <;>
        simp [process_url, download_youtube_video, hf, List.filter_append,
          send_filter_remove, send_filter_notifier, cleanup_filter_notifier,
          cleanup_filter_remove, video_title_lookup_send_irrelevant,
          isRemoveCall, isNotifierCall]
  | downloadError e =>
      refine ⟨?_, ?_, ?_, ?_, ?_⟩ <;>
        simp [process_url, download_youtube_video, hf, isRemoveCall,
          isNotifierCall]
  | otherError e =>
      refine ⟨?_, ?_, ?_, ?_, ?_⟩ <;>
        simp [process_url, download_youtube_video, hf, isRemoveCall,
          isNotifierCall]

end LongUploader
